import Mathlib

/-!
Shallow embedding of `src/price_alert_bot.py` (class `PriceAlertBot`).

The program keeps an in-memory registry of price alerts
(`self.alerts : dict symbol -> {exchange, token, target_price, direction}`),
polls a quote source for the last traded price of each alert's instrument
(`fetch_ltp`), and on a crossing sends a Telegram notification and deletes
the alert (`check_alerts`).  `run` logs in to the market API first and
performs no cycles when the login failed.

Modelling choices:
* prices (`target_price`, LTP values) are rationals `ℚ` — the real-number
  model of Python floats for the comparison logic;
* the Python dict `self.alerts` is an insertion-ordered association list
  `List (String × Alert)`; assigning an existing key replaces the value in
  place, a fresh key is appended (CPython dict semantics);
* collaborators are oracles passed as arguments: the quote API
  (`api.get_quotes`) as `String → String → Except PyExn Quote`, Python
  `float()` on the quote's field value as `String → Option ℚ` (`none` =
  `ValueError`), and Telegram delivery as `Notif → Except DeliveryError Unit`;
* Python exceptions are an explicit `Except` layer; a `try/except` block is a
  `match` on that layer at the exact place the source puts the handler.
-/

namespace PriceAlertBot

/-- One entry of `self.alerts`: the per-symbol dict built by `add_alert`
(lines 37–42).  `direction` is the free-form string of the source
(`'above'`/`'below'` expected, nothing validated). -/
structure Alert where
  exchange : String
  token : String
  target_price : ℚ
  direction : String
  deriving Repr, DecidableEq

/-- A Telegram notification produced on a trigger: the data interpolated into
the message string `f"Price Alert: {symbol} LTP {ltp} crossed above/below {target}"`
(lines 74 and 79). -/
structure Notif where
  symbol : String
  ltp : ℚ
  crossed : String
  target : ℚ
  deriving Repr, DecidableEq

/-- Exceptions that can be raised inside the `try` of `fetch_ltp`:
a failure of `api.get_quotes` (network/API error) or a `ValueError`
from `float()` on an unparsable field value. -/
inductive PyExn where
  | apiError : PyExn
  | parseError : PyExn
  deriving Repr, DecidableEq

/-- `telegram.error.TelegramError`: the delivery failure raised by
`telegram_bot.send_message` and caught in `send_telegram_alert`. -/
structure DeliveryError where
  msg : String
  deriving Repr, DecidableEq

/-- A quote response from `api.get_quotes`: `None`, or a dict modelled as an
association list from field name to the field's raw value (a string fed to
`float()`). -/
abbrev Quote := Option (List (String × String))

/-- Python truthiness of a quote response (`if quote and ...`, lines 48/50):
`None` and the empty dict are falsy. -/
def truthy : Quote → Bool
  | none => false
  | some q => !q.isEmpty

/-- `'k' in quote` (dict key membership). -/
def hasKey (q : Quote) (k : String) : Bool :=
  match q with
  | none => false
  | some l => (l.lookup k).isSome

/-- `quote['k']` (dict lookup; `none` when absent, which the guarded source
never hits). -/
def getVal (q : Quote) (k : String) : Option String :=
  q.bind (fun l => l.lookup k)

/-- Python `float(v)` on the raw field value `v`: `parse` is the conversion
oracle, `none` meaning `float` raises `ValueError` (`parseError`).  A missing
value also raises (unreachable under the source's `in` guards). -/
def pyFloat (parse : String → Option ℚ) (v : Option String) : Except PyExn ℚ :=
  match v with
  | some s =>
    match parse s with
    | some x => Except.ok x
    | none => Except.error PyExn.parseError
  | none => Except.error PyExn.parseError

/-- The `try` body of `fetch_ltp` (lines 47–54): call `api.get_quotes`, prefer
the `'lp'` field, fall back to `'ltp'`, return `None` when neither is present.
Exceptions (API failure, `float` parse failure) propagate to the handler. -/
def fetchBody (get_quotes : String → String → Except PyExn Quote)
    (parse : String → Option ℚ) (exchange token : String) :
    Except PyExn (Option ℚ) :=
  match get_quotes exchange token with
  | Except.error err => Except.error err
  | Except.ok quote =>
    if truthy quote && hasKey quote "lp" then
      match pyFloat parse (getVal quote "lp") with
      | Except.ok x => Except.ok (some x)
      | Except.error err => Except.error err
    else if truthy quote && hasKey quote "ltp" then
      match pyFloat parse (getVal quote "ltp") with
      | Except.ok x => Except.ok (some x)
      | Except.error err => Except.error err
    else
      Except.ok none

/-- `fetch_ltp` (lines 45–57): the `try` body with its
`except Exception: return None` handler — every failure becomes `none`
(the alert is then skipped for the cycle). -/
def fetch_ltp (get_quotes : String → String → Except PyExn Quote)
    (parse : String → Option ℚ) (exchange token : String) : Option ℚ :=
  match fetchBody get_quotes parse exchange token with
  | Except.ok r => r
  | Except.error _ => none

/-- `send_telegram_alert` (lines 59–64): calls Telegram and catches
`TelegramError`, logging either way; the delivery outcome is swallowed and
nothing is returned. -/
def send_telegram_alert (sendMessage : Notif → Except DeliveryError Unit)
    (n : Notif) : Unit :=
  match sendMessage n with
  | Except.ok _ => ()
  | Except.error _ => ()

/-- `add_alert` (lines 32–43): `self.alerts[symbol] = {...}` — dict assignment
replaces the value in place when the key exists, otherwise appends. -/
def add_alert (alerts : List (String × Alert))
    (symbol exchange token : String) (target_price : ℚ) (direction : String) :
    List (String × Alert) :=
  if alerts.any (fun p => p.1 = symbol) then
    alerts.map (fun p =>
      if p.1 = symbol then (symbol, ⟨exchange, token, target_price, direction⟩)
      else p)
  else
    alerts ++ [(symbol, ⟨exchange, token, target_price, direction⟩)]

/-- Observable outcome of one `check_alerts` call: the registry afterwards,
the notifications sent, and how many quote fetches were performed. -/
structure CycleResult where
  alerts : List (String × Alert)
  sent : List Notif
  fetches : Nat
  deriving Repr, DecidableEq

/-- `check_alerts` (lines 66–82): iterate the alert dict in order; skip an
alert whose LTP fetch failed (`continue`); on a crossing send the notification,
`del` the alert and `break` — the source stops the cycle at the first trigger,
so later alerts of the same cycle are not evaluated.  `fetch` is
`fetch_ltp` pre-applied to the quote oracle, `send` the Telegram oracle. -/
def check_alerts (fetch : String → String → Option ℚ)
    (send : Notif → Except DeliveryError Unit) :
    List (String × Alert) → CycleResult
  | [] => ⟨[], [], 0⟩
  | (symbol, alert) :: rest =>
    match fetch alert.exchange alert.token with
    | none =>
      let r := check_alerts fetch send rest
      ⟨(symbol, alert) :: r.alerts, r.sent, r.fetches + 1⟩
    | some ltp =>
      if alert.direction = "above" ∧ alert.target_price < ltp then
        let n : Notif := ⟨symbol, ltp, "above", alert.target_price⟩
        let _ := send_telegram_alert send n
        ⟨rest, [n], 1⟩
      else if alert.direction = "below" ∧ ltp < alert.target_price then
        let n : Notif := ⟨symbol, ltp, "below", alert.target_price⟩
        let _ := send_telegram_alert send n
        ⟨rest, [n], 1⟩
      else
        let r := check_alerts fetch send rest
        ⟨(symbol, alert) :: r.alerts, r.sent, r.fetches + 1⟩

/-- The symbols a list of notifications was sent for. -/
def sentSymbols (l : List Notif) : List String := l.map Notif.symbol

/-- Registry keys (the dict's key view). -/
def keysOf (l : List (String × Alert)) : List String := l.map Prod.fst

/-- `check_alerts` at the Python exception level: `fetch_ltp`'s `try` body can
raise (`fetchBody`) and its handler converts any exception to `None`;
`send_telegram_alert`'s handler catches the `TelegramError`.  The result type
records whether an exception escapes the cycle (a process crash). -/
def check_alertsE (get_quotes : String → String → Except PyExn Quote)
    (parse : String → Option ℚ)
    (send : Notif → Except DeliveryError Unit) :
    List (String × Alert) → Except PyExn CycleResult
  | [] => Except.ok ⟨[], [], 0⟩
  | (symbol, alert) :: rest =>
    let ltp : Option ℚ :=
      match fetchBody get_quotes parse alert.exchange alert.token with
      | Except.ok r => r
      | Except.error _ => none
    match ltp with
    | none => do
      let r ← check_alertsE get_quotes parse send rest
      pure ⟨(symbol, alert) :: r.alerts, r.sent, r.fetches + 1⟩
    | some v =>
      if alert.direction = "above" ∧ alert.target_price < v then
        let n : Notif := ⟨symbol, v, "above", alert.target_price⟩
        let _ := send_telegram_alert send n
        Except.ok ⟨rest, [n], 1⟩
      else if alert.direction = "below" ∧ v < alert.target_price then
        let n : Notif := ⟨symbol, v, "below", alert.target_price⟩
        let _ := send_telegram_alert send n
        Except.ok ⟨rest, [n], 1⟩
      else do
        let r ← check_alertsE get_quotes parse send rest
        pure ⟨(symbol, alert) :: r.alerts, r.sent, r.fetches + 1⟩

/-- `login_market_api` (lines 20–30): `logged_in` becomes true exactly when
`api.login` returned a non-`None` response (`loginRet`). -/
def login_market_api (loginRet : Option Unit) : Bool :=
  loginRet.isSome

/-- Aggregate observation of `run`'s polling loop. -/
structure RunResult where
  alerts : List (String × Alert)
  sent : List Notif
  fetches : Nat
  deriving Repr, DecidableEq

/-- The `while True` loop of `run` (lines 92–97), unrolled for `fuel`
iterations (the external stop after `fuel` cycles).  `fetch i` is the quote
source's behavior during cycle `i` (prices move between polls); an empty
registry makes the iteration a pure wait. -/
def runLoop (fetch : Nat → String → String → Option ℚ)
    (send : Notif → Except DeliveryError Unit) :
    Nat → Nat → List (String × Alert) → RunResult
  | _, 0, alerts => ⟨alerts, [], 0⟩
  | i, fuel + 1, alerts =>
    if alerts.isEmpty then
      runLoop fetch send (i + 1) fuel alerts
    else
      let c := check_alerts (fetch i) send alerts
      let r := runLoop fetch send (i + 1) fuel c.alerts
      ⟨r.alerts, c.sent ++ r.sent, c.fetches + r.fetches⟩

/-- `run` (lines 84–99): perform the market-API login; when it failed,
return immediately without a single cycle, otherwise enter the polling
loop. -/
def run (loginRet : Option Unit) (fetch : Nat → String → String → Option ℚ)
    (send : Notif → Except DeliveryError Unit) (fuel : Nat)
    (alerts : List (String × Alert)) : RunResult :=
  let logged_in := login_market_api loginRet
  if logged_in then runLoop fetch send 0 fuel alerts
  else ⟨alerts, [], 0⟩

/-- The operations that mutate the registry in the source: `add_alert`
calls and `check_alerts` cycles (which delete triggered alerts). -/
inductive RegOp where
  | add (symbol exchange token : String) (target_price : ℚ) (direction : String) : RegOp
  | check (fetch : String → String → Option ℚ)
      (send : Notif → Except DeliveryError Unit) : RegOp

/-- Apply one registry operation. -/
def applyOp (alerts : List (String × Alert)) : RegOp → List (String × Alert)
  | RegOp.add s e t tp d => add_alert alerts s e t tp d
  | RegOp.check fetch send => (check_alerts fetch send alerts).alerts

/-- Apply a sequence of registry operations in order. -/
def applyOps (ops : List RegOp) (alerts : List (String × Alert)) :
    List (String × Alert) :=
  ops.foldl applyOp alerts

/-! ### Structural lemmas about one evaluation cycle -/

theorem check_alerts_alerts_sublist (fetch : String → String → Option ℚ)
    (send : Notif → Except DeliveryError Unit) :
    ∀ l : List (String × Alert), (check_alerts fetch send l).alerts.Sublist l := by
  intro l
  induction l with
  | nil => simp [check_alerts]
  | cons hd tl ih =>
    obtain ⟨symbol, alert⟩ := hd
    cases hf : fetch alert.exchange alert.token with
    | none =>
      simpa [check_alerts, hf] using ih.cons₂ (symbol, alert)
    | some ltp =>
      by_cases h1 : alert.direction = "above" ∧ alert.target_price < ltp
      · simp [check_alerts, hf, h1]
      · by_cases h2 : alert.direction = "below" ∧ ltp < alert.target_price
        · simp [check_alerts, hf, h1, h2]
        · simpa [check_alerts, hf, h1, h2] using ih.cons₂ (symbol, alert)

theorem check_alerts_keys_sublist (fetch : String → String → Option ℚ)
    (send : Notif → Except DeliveryError Unit) (l : List (String × Alert)) :
    (keysOf (check_alerts fetch send l).alerts).Sublist (keysOf l) :=
  (check_alerts_alerts_sublist fetch send l).map Prod.fst

theorem check_alerts_sent_symbol_mem (fetch : String → String → Option ℚ)
    (send : Notif → Except DeliveryError Unit) :
    ∀ l : List (String × Alert), ∀ n ∈ (check_alerts fetch send l).sent,
      n.symbol ∈ keysOf l := by
  intro l
  induction l with
  | nil => simp [check_alerts]
  | cons hd tl ih =>
    obtain ⟨symbol, alert⟩ := hd
    intro n hn
    cases hf : fetch alert.exchange alert.token with
    | none =>
      simp only [check_alerts, hf] at hn
      exact List.mem_cons_of_mem _ (ih n hn)
    | some ltp =>
      by_cases h1 : alert.direction = "above" ∧ alert.target_price < ltp
      · simp only [check_alerts, hf, if_pos h1] at hn
        simp only [List.mem_singleton] at hn
        subst hn
        simp [keysOf]
      · by_cases h2 : alert.direction = "below" ∧ ltp < alert.target_price
        · simp only [check_alerts, hf, if_neg h1, if_pos h2] at hn
          simp only [List.mem_singleton] at hn
          subst hn
          simp [keysOf]
        · simp only [check_alerts, hf, if_neg h1, if_neg h2] at hn
          exact List.mem_cons_of_mem _ (ih n hn)

theorem check_alerts_sent_not_mem (fetch : String → String → Option ℚ)
    (send : Notif → Except DeliveryError Unit) :
    ∀ l : List (String × Alert), (keysOf l).Nodup →
      ∀ n ∈ (check_alerts fetch send l).sent,
        n.symbol ∉ keysOf (check_alerts fetch send l).alerts := by
  intro l
  induction l with
  | nil => simp [check_alerts]
  | cons hd tl ih =>
    obtain ⟨symbol, alert⟩ := hd
    intro hnd n hn
    have hnd' : symbol ∉ keysOf tl ∧ (keysOf tl).Nodup := by
      simp only [keysOf, List.map_cons, List.nodup_cons] at hnd
      exact hnd
    have hhd := hnd'.1
    have htl := hnd'.2
    cases hf : fetch alert.exchange alert.token with
    | none =>
      simp only [check_alerts, hf] at hn ⊢
      have hne : n.symbol ≠ symbol := by
        intro h
        exact hhd (h ▸ check_alerts_sent_symbol_mem fetch send tl n hn)
      simp only [keysOf, List.map_cons, List.mem_cons, not_or]
      exact ⟨hne, ih htl n hn⟩
    | some ltp =>
      by_cases h1 : alert.direction = "above" ∧ alert.target_price < ltp
      · simp only [check_alerts, hf, if_pos h1] at hn ⊢
        simp only [List.mem_singleton] at hn
        subst hn
        exact hhd
      · by_cases h2 : alert.direction = "below" ∧ ltp < alert.target_price
        · simp only [check_alerts, hf, if_neg h1, if_pos h2] at hn ⊢
          simp only [List.mem_singleton] at hn
          subst hn
          exact hhd
        · simp only [check_alerts, hf, if_neg h1, if_neg h2] at hn ⊢
          have hne : n.symbol ≠ symbol := by
            intro h
            exact hhd (h ▸ check_alerts_sent_symbol_mem fetch send tl n hn)
          simp only [keysOf, List.map_cons, List.mem_cons, not_or]
          exact ⟨hne, ih htl n hn⟩

theorem runLoop_not_mem (fetch : Nat → String → String → Option ℚ)
    (send : Notif → Except DeliveryError Unit) (k : String) :
    ∀ fuel i (l : List (String × Alert)), k ∉ keysOf l →
      k ∉ keysOf (runLoop fetch send i fuel l).alerts ∧
      k ∉ sentSymbols (runLoop fetch send i fuel l).sent := by
  intro fuel
  induction fuel with
  | zero =>
    intro i l hk
    simp only [runLoop]
    exact ⟨hk, by simp [sentSymbols]⟩
  | succ fuel ih =>
    intro i l hk
    by_cases he : l.isEmpty
    · simp only [runLoop, if_pos he]
      exact ih (i + 1) l hk
    · simp only [runLoop, if_neg he]
      have hc : k ∉ keysOf (check_alerts (fetch i) send l).alerts := fun hmem =>
        hk ((check_alerts_keys_sublist (fetch i) send l).subset hmem)
      have hs : k ∉ sentSymbols (check_alerts (fetch i) send l).sent := by
        intro hmem
        obtain ⟨n, hn, hsym⟩ := List.mem_map.mp hmem
        exact hk (hsym ▸ check_alerts_sent_symbol_mem (fetch i) send l n hn)
      obtain ⟨h1, h2⟩ := ih (i + 1) (check_alerts (fetch i) send l).alerts hc
      refine ⟨h1, ?_⟩
      simp only [sentSymbols, List.map_append, List.mem_append, not_or]
      exact ⟨hs, h2⟩

/-! ### Lemmas about `add_alert` and registry operation sequences -/

theorem any_key_iff (m : List (String × Alert)) (s : String) :
    m.any (fun p => p.1 = s) = true ↔ s ∈ keysOf m := by
  simp only [List.any_eq_true, decide_eq_true_eq, keysOf, List.mem_map]

theorem keysOf_add_alert (m : List (String × Alert))
    (s e t : String) (tp : ℚ) (d : String) :
    keysOf (add_alert m s e t tp d) =
      if s ∈ keysOf m then keysOf m else keysOf m ++ [s] := by
  by_cases h : s ∈ keysOf m
  · rw [if_pos h]
    have ha : m.any (fun p => p.1 = s) = true := (any_key_iff m s).mpr h
    simp only [add_alert, if_pos ha, keysOf, List.map_map]
    apply List.map_congr_left
    intro p _
    by_cases hp : p.1 = s
    · simp [hp]
    · simp [hp]
  · rw [if_neg h]
    have ha : ¬ m.any (fun p => p.1 = s) = true := fun hc => h ((any_key_iff m s).mp hc)
    simp [add_alert, if_neg ha, keysOf]

theorem keysOf_add_alert_nodup (m : List (String × Alert))
    (s e t : String) (tp : ℚ) (d : String) (hnd : (keysOf m).Nodup) :
    (keysOf (add_alert m s e t tp d)).Nodup := by
  rw [keysOf_add_alert]
  by_cases h : s ∈ keysOf m
  · rwa [if_pos h]
  · rw [if_neg h]
    simp [List.nodup_append, hnd, h]

theorem mem_keysOf_add_alert (m : List (String × Alert))
    (s e t : String) (tp : ℚ) (d : String) :
    s ∈ keysOf (add_alert m s e t tp d) := by
  rw [keysOf_add_alert]
  by_cases h : s ∈ keysOf m
  · rwa [if_pos h]
  · rw [if_neg h]
    simp

theorem lookup_map_replace (s : String) (v : Alert) :
    ∀ m : List (String × Alert), s ∈ keysOf m →
      (m.map (fun p => if p.1 = s then (s, v) else p)).lookup s = some v := by
  intro m
  induction m with
  | nil => simp [keysOf]
  | cons hd tl ih =>
    intro hmem
    obtain ⟨k, w⟩ := hd
    by_cases hp : k = s
    · subst hp
      simp
    · have hmem' : s ∈ keysOf tl := by
        simp only [keysOf, List.map_cons, List.mem_cons] at hmem
        exact hmem.resolve_left fun h => hp h.symm
      have hbeq : (s == k) = false := by
        simpa using fun h => hp h.symm
      simp only [List.map_cons]
      rw [if_neg hp, List.lookup_cons, hbeq]
      exact ih hmem'

theorem lookup_append_self (s : String) (v : Alert) :
    ∀ m : List (String × Alert), s ∉ keysOf m →
      (m ++ [(s, v)]).lookup s = some v := by
  intro m
  induction m with
  | nil => simp
  | cons hd tl ih =>
    intro hmem
    obtain ⟨k, w⟩ := hd
    have hks : s ≠ k := by
      intro h
      exact hmem (by simp [keysOf, h])
    have hmem' : s ∉ keysOf tl := fun hc =>
      hmem (by simp only [keysOf, List.map_cons, List.mem_cons]; exact Or.inr hc)
    have hbeq : (s == k) = false := by simpa using hks
    rw [List.cons_append, List.lookup_cons, hbeq]
    exact ih hmem'

theorem lookup_add_alert_self (m : List (String × Alert))
    (s e t : String) (tp : ℚ) (d : String) :
    (add_alert m s e t tp d).lookup s = some ⟨e, t, tp, d⟩ := by
  by_cases h : s ∈ keysOf m
  · have ha : m.any (fun p => p.1 = s) = true := (any_key_iff m s).mpr h
    simp only [add_alert, if_pos ha]
    exact lookup_map_replace s _ m h
  · have ha : ¬m.any (fun p => p.1 = s) = true := fun hc => h ((any_key_iff m s).mp hc)
    simp only [add_alert, if_neg ha]
    exact lookup_append_self s _ m h

theorem eq_of_mem_of_nodup_keys :
    ∀ (l : List (String × Alert)) (k : String) (a b : Alert),
      (keysOf l).Nodup → (k, a) ∈ l → (k, b) ∈ l → a = b := by
  intro l
  induction l with
  | nil => simp
  | cons hd tl ih =>
    intro k a b hnd ha hb
    obtain ⟨k', w⟩ := hd
    have hnd' : k' ∉ keysOf tl ∧ (keysOf tl).Nodup := by
      simp only [keysOf, List.map_cons, List.nodup_cons] at hnd
      exact hnd
    rcases List.mem_cons.mp ha with ha' | ha' <;>
      rcases List.mem_cons.mp hb with hb' | hb'
    · rw [Prod.mk.injEq] at ha' hb'
      rw [ha'.2, hb'.2]
    · rw [Prod.mk.injEq] at ha'
      exact absurd (List.mem_map.mpr ⟨(k, b), hb', ha'.1⟩) hnd'.1
    · rw [Prod.mk.injEq] at hb'
      exact absurd (List.mem_map.mpr ⟨(k, a), ha', hb'.1⟩) hnd'.1
    · exact ih k a b hnd'.2 ha' hb'

theorem applyOp_keys_nodup (l : List (String × Alert)) (op : RegOp)
    (hnd : (keysOf l).Nodup) : (keysOf (applyOp l op)).Nodup := by
  cases op with
  | add s e t tp d => exact keysOf_add_alert_nodup l s e t tp d hnd
  | check fetch send => exact hnd.sublist (check_alerts_keys_sublist fetch send l)

theorem applyOps_keys_nodup :
    ∀ (ops : List RegOp) (l : List (String × Alert)),
      (keysOf l).Nodup → (keysOf (applyOps ops l)).Nodup := by
  intro ops
  induction ops with
  | nil => intro l h; exact h
  | cons op ops ih =>
    intro l h
    simp only [applyOps, List.foldl_cons]
    exact ih (applyOp l op) (applyOp_keys_nodup l op h)

theorem applyOps_append (ops₁ ops₂ : List RegOp) (l : List (String × Alert)) :
    applyOps (ops₁ ++ ops₂) l = applyOps ops₂ (applyOps ops₁ l) := by
  simp [applyOps, List.foldl_append]

/-! ### Alerts with a malformed direction string -/

theorem check_alerts_bad_direction_kept (fetch : String → String → Option ℚ)
    (send : Notif → Except DeliveryError Unit) (k : String) (a : Alert)
    (hup : a.direction ≠ "above") (hdn : a.direction ≠ "below") :
    ∀ l : List (String × Alert), (k, a) ∈ l →
      (k, a) ∈ (check_alerts fetch send l).alerts := by
  intro l
  induction l with
  | nil => simp
  | cons hd tl ih =>
    intro hmem
    obtain ⟨symbol, alert⟩ := hd
    rcases List.mem_cons.mp hmem with heq | htl
    · rw [Prod.mk.injEq] at heq
      obtain ⟨hk, ha⟩ := heq
      subst hk
      subst ha
      cases hf : fetch a.exchange a.token with
      | none => simp [check_alerts, hf]
      | some ltp =>
        have h1 : ¬(a.direction = "above" ∧ a.target_price < ltp) := fun hc => hup hc.1
        have h2 : ¬(a.direction = "below" ∧ ltp < a.target_price) := fun hc => hdn hc.1
        simp [check_alerts, hf, h1, h2]
    · cases hf : fetch alert.exchange alert.token with
      | none =>
        simp only [check_alerts, hf]
        exact List.mem_cons_of_mem _ (ih htl)
      | some ltp =>
        by_cases h1 : alert.direction = "above" ∧ alert.target_price < ltp
        · simp only [check_alerts, hf, if_pos h1]
          exact htl
        · by_cases h2 : alert.direction = "below" ∧ ltp < alert.target_price
          · simp only [check_alerts, hf, if_neg h1, if_pos h2]
            exact htl
          · simp only [check_alerts, hf, if_neg h1, if_neg h2]
            exact List.mem_cons_of_mem _ (ih htl)

theorem check_alerts_sent_source (fetch : String → String → Option ℚ)
    (send : Notif → Except DeliveryError Unit) :
    ∀ l : List (String × Alert), ∀ n ∈ (check_alerts fetch send l).sent,
      ∃ a : Alert, (n.symbol, a) ∈ l ∧
        (a.direction = "above" ∨ a.direction = "below") := by
  intro l
  induction l with
  | nil => simp [check_alerts]
  | cons hd tl ih =>
    obtain ⟨symbol, alert⟩ := hd
    intro n hn
    cases hf : fetch alert.exchange alert.token with
    | none =>
      simp only [check_alerts, hf] at hn
      obtain ⟨a, ha, hdir⟩ := ih n hn
      exact ⟨a, List.mem_cons_of_mem _ ha, hdir⟩
    | some ltp =>
      by_cases h1 : alert.direction = "above" ∧ alert.target_price < ltp
      · simp only [check_alerts, hf, if_pos h1, List.mem_singleton] at hn
        subst hn
        exact ⟨alert, List.mem_cons_self _ _, Or.inl h1.1⟩
      · by_cases h2 : alert.direction = "below" ∧ ltp < alert.target_price
        · simp only [check_alerts, hf, if_neg h1, if_pos h2, List.mem_singleton] at hn
          subst hn
          exact ⟨alert, List.mem_cons_self _ _, Or.inr h2.1⟩
        · simp only [check_alerts, hf, if_neg h1, if_neg h2] at hn
          obtain ⟨a, ha, hdir⟩ := ih n hn
          exact ⟨a, List.mem_cons_of_mem _ ha, hdir⟩

theorem check_alerts_bad_direction_not_sent (fetch : String → String → Option ℚ)
    (send : Notif → Except DeliveryError Unit) (l : List (String × Alert))
    (k : String) (a : Alert) (hnd : (keysOf l).Nodup) (hmem : (k, a) ∈ l)
    (hup : a.direction ≠ "above") (hdn : a.direction ≠ "below") :
    k ∉ sentSymbols (check_alerts fetch send l).sent := by
  intro hk
  obtain ⟨n, hn, hsym⟩ := List.mem_map.mp hk
  obtain ⟨a', ha', hdir⟩ := check_alerts_sent_source fetch send l n hn
  rw [hsym] at ha'
  have : a' = a := eq_of_mem_of_nodup_keys l k a' a hnd ha' hmem
  subst this
  rcases hdir with h | h
  · exact hup h
  · exact hdn h

/-! ### The exception-level cycle never lets a collaborator failure escape -/

theorem check_alertsE_ok (get_quotes : String → String → Except PyExn Quote)
    (parse : String → Option ℚ) (send : Notif → Except DeliveryError Unit) :
    ∀ l : List (String × Alert),
      check_alertsE get_quotes parse send l =
        Except.ok (check_alerts (fetch_ltp get_quotes parse) send l) := by
  intro l
  induction l with
  | nil => rfl
  | cons hd tl ih =>
    obtain ⟨symbol, alert⟩ := hd
    cases hfb : fetchBody get_quotes parse alert.exchange alert.token with
    | error e =>
      simp only [check_alertsE, check_alerts, fetch_ltp, hfb, ih]
      rfl
    | ok r =>
      cases r with
      | none =>
        simp only [check_alertsE, check_alerts, fetch_ltp, hfb, ih]
        rfl
      | some v =>
        by_cases h1 : alert.direction = "above" ∧ alert.target_price < v
        · simp only [check_alertsE, check_alerts, fetch_ltp, hfb, if_pos h1]
        · by_cases h2 : alert.direction = "below" ∧ v < alert.target_price
          · simp only [check_alertsE, check_alerts, fetch_ltp, hfb, if_neg h1,
              if_pos h2]
          · simp only [check_alertsE, check_alerts, fetch_ltp, hfb, if_neg h1,
              if_neg h2, ih]
            rfl

/-! ### The claims -/

/-- C1: the claim says that when every alert of a cycle satisfies its crossing
condition and every quote fetch succeeds, one `check_alerts` call triggers and
removes all of them.  The source `break`s after the first trigger, so on the
spec's own concrete scenario (RELIANCE-EQ above 2500 at 2501, TCS-EQ below
3000 at 2950, both fetches succeeding) the cycle sends one notification and
leaves TCS-EQ in the registry: the code contradicts the claim. -/
theorem claim_C1_early_exit_starves_later_alerts :
    check_alerts
        (fun _ tok => if tok = "22" then some 2501 else if tok = "33" then some 2950 else none)
        (fun _ => Except.ok ())
        (add_alert (add_alert [] "RELIANCE-EQ" "NSE" "22" 2500 "above")
          "TCS-EQ" "NSE" "33" 3000 "below")
      = ⟨[("TCS-EQ", ⟨"NSE", "33", 3000, "below"⟩)],
         [⟨"RELIANCE-EQ", 2501, "above", 2500⟩], 1⟩ := by decide

/-- C2: on a fetched price `p`, a single alert's evaluation sends a
notification exactly when its direction is `"above"` and `p` is strictly
greater than the target, or its direction is `"below"` and `p` is strictly
less than the target; a price equal to the target never triggers. -/
theorem claim_C2_strict_crossing (k : String) (a : Alert) (p : ℚ)
    (send : Notif → Except DeliveryError Unit) :
    (sentSymbols (check_alerts (fun _ _ => some p) send [(k, a)]).sent = [k] ↔
        (a.direction = "above" ∧ a.target_price < p) ∨
        (a.direction = "below" ∧ p < a.target_price)) ∧
    sentSymbols (check_alerts (fun _ _ => some a.target_price) send [(k, a)]).sent
      = [] := by
  constructor
  · by_cases h1 : a.direction = "above" ∧ a.target_price < p
    · simp [check_alerts, h1, sentSymbols]
    · by_cases h2 : a.direction = "below" ∧ p < a.target_price
      · simp [check_alerts, h1, h2, sentSymbols]
      · simp [check_alerts, h1, h2, sentSymbols]
  · have h1 : ¬(a.direction = "above" ∧ a.target_price < a.target_price) :=
      fun hc => lt_irrefl _ hc.2
    have h2 : ¬(a.direction = "below" ∧ a.target_price < a.target_price) :=
      fun hc => lt_irrefl _ hc.2
    simp [check_alerts, h1, h2, sentSymbols]

/-- C3: starting from the empty registry, any sequence of registry operations
(`add_alert` calls, `check_alerts` cycles) keeps the keys duplicate-free, and
after two consecutive `add_alert` calls for the same key the registry holds
exactly one entry for that key, carrying the second call's criteria. -/
theorem claim_C3_key_uniqueness :
    (∀ ops : List RegOp, (keysOf (applyOps ops [])).Nodup) ∧
    ∀ (ops : List RegOp) (k e₁ t₁ : String) (tp₁ : ℚ) (d₁ e₂ t₂ : String)
      (tp₂ : ℚ) (d₂ : String),
      (keysOf (applyOps (ops ++ [RegOp.add k e₁ t₁ tp₁ d₁, RegOp.add k e₂ t₂ tp₂ d₂])
          [])).count k = 1 ∧
      (applyOps (ops ++ [RegOp.add k e₁ t₁ tp₁ d₁, RegOp.add k e₂ t₂ tp₂ d₂])
          []).lookup k = some ⟨e₂, t₂, tp₂, d₂⟩ := by
  have hbase : (keysOf ([] : List (String × Alert))).Nodup := by simp [keysOf]
  refine ⟨fun ops => applyOps_keys_nodup ops [] hbase, ?_⟩
  intro ops k e₁ t₁ tp₁ d₁ e₂ t₂ tp₂ d₂
  rw [applyOps_append]
  have hmnd : (keysOf (applyOps ops [])).Nodup := applyOps_keys_nodup ops [] hbase
  simp only [applyOps, List.foldl_cons, List.foldl_nil, applyOp]
  constructor
  · have h1nd := keysOf_add_alert_nodup (applyOps ops []) k e₁ t₁ tp₁ d₁ hmnd
    have h2nd := keysOf_add_alert_nodup _ k e₂ t₂ tp₂ d₂ h1nd
    exact List.count_eq_one_of_mem h2nd (mem_keysOf_add_alert _ k e₂ t₂ tp₂ d₂)
  · exact lookup_add_alert_self _ k e₂ t₂ tp₂ d₂

/-- C4: once `check_alerts` has sent a notification for key `k`, `k` is gone
from the registry that cycle, and no continuation of the polling loop (any
number of further cycles, any later prices, no new `add_alert`) ever shows `k`
in the registry again or sends another notification for it. -/
theorem claim_C4_no_double_trigger (fetch₀ : String → String → Option ℚ)
    (send₀ : Notif → Except DeliveryError Unit) (l : List (String × Alert))
    (k : String) (hnd : (keysOf l).Nodup)
    (htrig : k ∈ sentSymbols (check_alerts fetch₀ send₀ l).sent) :
    k ∉ keysOf (check_alerts fetch₀ send₀ l).alerts ∧
    ∀ (fetch : Nat → String → String → Option ℚ)
      (send : Notif → Except DeliveryError Unit) (i fuel : Nat),
      k ∉ keysOf (runLoop fetch send i fuel (check_alerts fetch₀ send₀ l).alerts).alerts ∧
      k ∉ sentSymbols (runLoop fetch send i fuel (check_alerts fetch₀ send₀ l).alerts).sent := by
  obtain ⟨n, hn, hsym⟩ := List.mem_map.mp htrig
  have hrm : k ∉ keysOf (check_alerts fetch₀ send₀ l).alerts :=
    hsym ▸ check_alerts_sent_not_mem fetch₀ send₀ l hnd n hn
  exact ⟨hrm, fun fetch send i fuel => runLoop_not_mem fetch send k fuel i _ hrm⟩

/-- Witness for C4 at a concrete input: two alerts, A triggers in the first
cycle; three further cycles at the same prices never mention A again. -/
theorem claim_C4_no_double_trigger_witness :
    ((keysOf [("A", (⟨"NSE", "1", 100, "above"⟩ : Alert)),
              ("B", (⟨"NSE", "2", 50, "below"⟩ : Alert))]).Nodup ∧
      "A" ∈ sentSymbols (check_alerts (fun _ _ => some 101) (fun _ => Except.ok ())
        [("A", ⟨"NSE", "1", 100, "above"⟩), ("B", ⟨"NSE", "2", 50, "below"⟩)]).sent) ∧
    "A" ∉ keysOf (check_alerts (fun _ _ => some 101) (fun _ => Except.ok ())
        [("A", ⟨"NSE", "1", 100, "above"⟩), ("B", ⟨"NSE", "2", 50, "below"⟩)]).alerts ∧
    "A" ∉ keysOf (runLoop (fun _ _ _ => some 101) (fun _ => Except.ok ()) 0 3
        (check_alerts (fun _ _ => some 101) (fun _ => Except.ok ())
          [("A", ⟨"NSE", "1", 100, "above"⟩), ("B", ⟨"NSE", "2", 50, "below"⟩)]).alerts).alerts ∧
    "A" ∉ sentSymbols (runLoop (fun _ _ _ => some 101) (fun _ => Except.ok ()) 0 3
        (check_alerts (fun _ _ => some 101) (fun _ => Except.ok ())
          [("A", ⟨"NSE", "1", 100, "above"⟩), ("B", ⟨"NSE", "2", 50, "below"⟩)]).alerts).sent := by
  have h := claim_C4_no_double_trigger (fun _ _ => some 101) (fun _ => Except.ok ())
    [("A", ⟨"NSE", "1", 100, "above"⟩), ("B", ⟨"NSE", "2", 50, "below"⟩)] "A"
    (by decide) (by decide)
  exact ⟨⟨by decide, by decide⟩, h.1,
    (h.2 (fun _ _ _ => some 101) (fun _ => Except.ok ()) 0 3).1,
    (h.2 (fun _ _ _ => some 101) (fun _ => Except.ok ()) 0 3).2⟩

/-- C5: the whole outcome of a cycle (registry, notifications, fetch count) is
the same whatever the Telegram delivery oracle answers — in particular a
delivery failure neither rolls back the triggered alert's removal nor changes
how the rest of the cycle proceeds — and a triggered alert is indeed removed. -/
theorem claim_C5_retire_regardless_of_delivery (fetch : String → String → Option ℚ)
    (send₁ send₂ : Notif → Except DeliveryError Unit) (l : List (String × Alert)) :
    check_alerts fetch send₁ l = check_alerts fetch send₂ l ∧
    ((keysOf l).Nodup → ∀ n ∈ (check_alerts fetch send₁ l).sent,
      n.symbol ∉ keysOf (check_alerts fetch send₁ l).alerts) := by
  constructor
  · induction l with
    | nil => rfl
    | cons hd tl ih =>
      obtain ⟨symbol, alert⟩ := hd
      cases hf : fetch alert.exchange alert.token with
      | none => simp [check_alerts, hf, ih]
      | some ltp =>
        by_cases h1 : alert.direction = "above" ∧ alert.target_price < ltp
        · simp [check_alerts, hf, h1]
        · by_cases h2 : alert.direction = "below" ∧ ltp < alert.target_price
          · simp [check_alerts, hf, h1, h2]
          · simp [check_alerts, hf, h1, h2, ih]
  · intro hnd n hn
    exact check_alerts_sent_not_mem fetch send₁ l hnd n hn

/-- Witness for C5 at a concrete input: a failing Telegram oracle produces the
same cycle outcome as an always-succeeding one, and the triggered alert is
removed. -/
theorem claim_C5_retire_regardless_of_delivery_witness :
    check_alerts (fun _ _ => some 101) (fun _ => Except.error ⟨"telegram down"⟩)
        [("A", (⟨"NSE", "1", 100, "above"⟩ : Alert))]
      = check_alerts (fun _ _ => some 101) (fun _ => Except.ok ())
        [("A", ⟨"NSE", "1", 100, "above"⟩)] ∧
    ((keysOf [("A", (⟨"NSE", "1", 100, "above"⟩ : Alert))]).Nodup ∧
      (⟨"A", 101, "above", 100⟩ : Notif) ∈
        (check_alerts (fun _ _ => some 101) (fun _ => Except.error ⟨"telegram down"⟩)
          [("A", ⟨"NSE", "1", 100, "above"⟩)]).sent) ∧
    Notif.symbol ⟨"A", 101, "above", 100⟩ ∉
      keysOf (check_alerts (fun _ _ => some 101) (fun _ => Except.error ⟨"telegram down"⟩)
        [("A", ⟨"NSE", "1", 100, "above"⟩)]).alerts := by
  have h := claim_C5_retire_regardless_of_delivery (fun _ _ => some 101)
    (fun _ => Except.error ⟨"telegram down"⟩) (fun _ => Except.ok ())
    [("A", ⟨"NSE", "1", 100, "above"⟩)]
  exact ⟨h.1, ⟨by decide, by decide⟩, h.2 (by decide) ⟨"A", 101, "above", 100⟩ (by decide)⟩

/-- C6: the claim says a quote-fetch failure for alert A leaves every other
alert of the cycle evaluated with its result applied.  In the source the
`break` after the first trigger falsifies this: with A's fetch failing
(token "1"), B triggering (201 > 200) and C also satisfying its condition
(40 < 50), the cycle keeps A (correct), triggers B, and then stops — C is
never evaluated: it stays in the registry and gets no notification although
its crossing condition holds and its fetch would have succeeded (only two
fetches are performed). -/
theorem claim_C6_isolation_broken_by_early_exit :
    check_alerts
        (fun _ tok => if tok = "1" then none
          else if tok = "2" then some 201 else if tok = "3" then some 40 else none)
        (fun _ => Except.ok ())
        [("A", ⟨"NSE", "1", 100, "above"⟩),
         ("B", ⟨"NSE", "2", 200, "above"⟩),
         ("C", ⟨"NSE", "3", 50, "below"⟩)]
      = ⟨[("A", ⟨"NSE", "1", 100, "above"⟩), ("C", ⟨"NSE", "3", 50, "below"⟩)],
         [⟨"B", 201, "above", 200⟩], 2⟩ := by decide

/-- C7: when the market-API login fails (`api.login` returned `None`), `run`
returns at once: the registry is untouched, no notification is sent and not a
single quote fetch is performed, whatever the oracles and however long the
loop would have run. -/
theorem claim_C7_not_ready_runs_no_cycle (fetch : Nat → String → String → Option ℚ)
    (send : Notif → Except DeliveryError Unit) (fuel : Nat)
    (l : List (String × Alert)) :
    run none fetch send fuel l = ⟨l, [], 0⟩ := by
  simp [run, login_market_api]

/-- C8 as stated is false on the code: `add_alert` performs no validation, so
the malformed direction `"sideways"` is stored in the registry rather than
rejected at the boundary. -/
theorem claim_C8_counterexample :
    (add_alert [] "XYZ" "NSE" "1" 100 "sideways").lookup "XYZ"
      = some ⟨"NSE", "1", 100, "sideways"⟩ := by decide

/-- C8 amended: `add_alert` stores any direction string without validation;
an alert whose direction is outside `{"above", "below"}` is silently kept —
its evaluation never triggers: `check_alerts` always retains the entry and
never sends a notification for its key. -/
theorem claim_C8_amended_no_validation (m : List (String × Alert))
    (s e t : String) (tp : ℚ) (d : String)
    (hup : d ≠ "above") (hdn : d ≠ "below") :
    (add_alert m s e t tp d).lookup s = some ⟨e, t, tp, d⟩ ∧
    ∀ (fetch : String → String → Option ℚ)
      (send : Notif → Except DeliveryError Unit) (l : List (String × Alert)),
      (s, (⟨e, t, tp, d⟩ : Alert)) ∈ l →
        (s, (⟨e, t, tp, d⟩ : Alert)) ∈ (check_alerts fetch send l).alerts ∧
        ((keysOf l).Nodup → s ∉ sentSymbols (check_alerts fetch send l).sent) := by
  refine ⟨lookup_add_alert_self m s e t tp d, ?_⟩
  intro fetch send l hmem
  exact ⟨check_alerts_bad_direction_kept fetch send s _ hup hdn l hmem,
    fun hnd => check_alerts_bad_direction_not_sent fetch send l s _ hnd hmem hup hdn⟩

/-- Witness for the amended C8 at a concrete input: a `"sideways"` alert is
stored, survives a cycle whose price would cross either way, and is never
notified. -/
theorem claim_C8_amended_no_validation_witness :
    ("sideways" ≠ "above" ∧ "sideways" ≠ "below" ∧
      ("X", (⟨"NSE", "1", 100, "sideways"⟩ : Alert)) ∈
        [("X", (⟨"NSE", "1", 100, "sideways"⟩ : Alert))] ∧
      (keysOf [("X", (⟨"NSE", "1", 100, "sideways"⟩ : Alert))]).Nodup) ∧
    (add_alert [] "X" "NSE" "1" 100 "sideways").lookup "X"
      = some ⟨"NSE", "1", 100, "sideways"⟩ ∧
    ("X", (⟨"NSE", "1", 100, "sideways"⟩ : Alert)) ∈
      (check_alerts (fun _ _ => some 200) (fun _ => Except.ok ())
        [("X", ⟨"NSE", "1", 100, "sideways"⟩)]).alerts ∧
    "X" ∉ sentSymbols (check_alerts (fun _ _ => some 200) (fun _ => Except.ok ())
        [("X", ⟨"NSE", "1", 100, "sideways"⟩)]).sent := by
  have h := claim_C8_amended_no_validation [] "X" "NSE" "1" 100 "sideways"
    (by decide) (by decide)
  have h2 := h.2 (fun _ _ => some 200) (fun _ => Except.ok ())
    [("X", ⟨"NSE", "1", 100, "sideways"⟩)] (by decide)
  exact ⟨⟨by decide, by decide, by decide, by decide⟩, h.1, h2.1, h2.2 (by decide)⟩

/-- C9: run at the Python exception level — the quote API may raise, `float`
may raise, Telegram delivery may raise a `TelegramError` — a cycle always
returns normally (`Except.ok`), equal to the pure cycle in which a fetch
failure is a skip and a delivery failure is ignored: no collaborator failure
escapes `check_alerts` as a crash. -/
theorem claim_C9_collaborator_failures_contained
    (get_quotes : String → String → Except PyExn Quote)
    (parse : String → Option ℚ) (send : Notif → Except DeliveryError Unit)
    (l : List (String × Alert)) :
    check_alertsE get_quotes parse send l =
      Except.ok (check_alerts (fetch_ltp get_quotes parse) send l) :=
  check_alertsE_ok get_quotes parse send l

/-- C10: price extraction from a quote response.  When the response is a
non-empty dict containing `'lp'`, `float(quote['lp'])` is returned — also when
`'ltp'` is present; `'ltp'` is used only when `'lp'` is absent; `None` comes
back for a `None` response, an empty dict, a dict with neither field, or a
chosen field whose value `float` cannot parse (no fallback to `'ltp'` in that
last case). -/
theorem claim_C10_lp_over_ltp (parse : String → Option ℚ) (e t : String) :
    (∀ (q : List (String × String)) (v : String) (x : ℚ),
        q ≠ [] → q.lookup "lp" = some v → parse v = some x →
        fetch_ltp (fun _ _ => Except.ok (some q)) parse e t = some x) ∧
    (∀ (q : List (String × String)) (v : String) (x : ℚ),
        q.lookup "lp" = none → q.lookup "ltp" = some v → parse v = some x →
        fetch_ltp (fun _ _ => Except.ok (some q)) parse e t = some x) ∧
    fetch_ltp (fun _ _ => Except.ok none) parse e t = none ∧
    fetch_ltp (fun _ _ => Except.ok (some [])) parse e t = none ∧
    (∀ q : List (String × String),
        q.lookup "lp" = none → q.lookup "ltp" = none →
        fetch_ltp (fun _ _ => Except.ok (some q)) parse e t = none) ∧
    (∀ (q : List (String × String)) (v : String),
        q.lookup "lp" = some v → parse v = none →
        fetch_ltp (fun _ _ => Except.ok (some q)) parse e t = none) ∧
    (∀ (q : List (String × String)) (v : String),
        q.lookup "lp" = none → q.lookup "ltp" = some v → parse v = none →
        fetch_ltp (fun _ _ => Except.ok (some q)) parse e t = none) := by
  refine ⟨?_, ?_, rfl, rfl, ?_, ?_, ?_⟩
  · intro q v x hq hlp hv
    have hne : q.isEmpty = false := by
      cases q with
      | nil => exact absurd rfl hq
      | cons a l => rfl
    simp [fetch_ltp, fetchBody, truthy, hasKey, getVal, pyFloat, hne, hlp, hv]
  · intro q v x hlp hltp hv
    have hne : q.isEmpty = false := by
      cases q with
      | nil => simp at hltp
      | cons a l => rfl
    simp [fetch_ltp, fetchBody, truthy, hasKey, getVal, pyFloat, hne, hlp, hltp, hv]
  · intro q hlp hltp
    cases hq : q.isEmpty with
    | true =>
      have : q = [] := List.isEmpty_iff.mp hq
      subst this
      rfl
    | false =>
      simp [fetch_ltp, fetchBody, truthy, hasKey, getVal, hq, hlp, hltp]
  · intro q v hlp hv
    have hne : q.isEmpty = false := by
      cases q with
      | nil => simp at hlp
      | cons a l => rfl
    simp [fetch_ltp, fetchBody, truthy, hasKey, getVal, pyFloat, hne, hlp, hv]
  · intro q v hlp hltp hv
    have hne : q.isEmpty = false := by
      cases q with
      | nil => simp at hltp
      | cons a l => rfl
    simp [fetch_ltp, fetchBody, truthy, hasKey, getVal, pyFloat, hne, hlp, hltp, hv]

/-- Witness for C10 at concrete inputs: with both fields present, the `'lp'`
value 101 wins over the `'ltp'` value 99; with `'lp'` absent, `'ltp'` is
used; an unparsable `'lp'` yields no price even though `'ltp'` parses. -/
theorem claim_C10_lp_over_ltp_witness :
    (([("ltp", "99"), ("lp", "101")] : List (String × String)) ≠ [] ∧
      ([("ltp", "99"), ("lp", "101")] : List (String × String)).lookup "lp"
        = some "101" ∧
      (fun s => if s = "101" then some ((101 : ℚ))
        else if s = "99" then some (99 : ℚ) else none) "101" = some ((101 : ℚ))) ∧
    fetch_ltp (fun _ _ => Except.ok (some [("ltp", "99"), ("lp", "101")]))
      (fun s => if s = "101" then some ((101 : ℚ))
        else if s = "99" then some (99 : ℚ) else none) "NSE" "22" = some ((101 : ℚ)) ∧
    fetch_ltp (fun _ _ => Except.ok (some [("ltp", "99")]))
      (fun s => if s = "101" then some ((101 : ℚ))
        else if s = "99" then some (99 : ℚ) else none) "NSE" "22" = some (99 : ℚ) ∧
    fetch_ltp (fun _ _ => Except.ok (some [("lp", "abc"), ("ltp", "99")]))
      (fun s => if s = "101" then some ((101 : ℚ))
        else if s = "99" then some (99 : ℚ) else none) "NSE" "22" = none := by
  have h := claim_C10_lp_over_ltp
    (fun s => if s = "101" then some ((101 : ℚ))
      else if s = "99" then some (99 : ℚ) else none) "NSE" "22"
  refine ⟨⟨by decide, by decide, by decide⟩, ?_, ?_, ?_⟩
  · exact h.1 [("ltp", "99"), ("lp", "101")] "101" ((101 : ℚ))
      (by decide) (by decide) (by decide)
  · exact h.2.1 [("ltp", "99")] "99" (99 : ℚ) (by decide) (by decide) (by decide)
  · exact h.2.2.2.2.2.1 [("lp", "abc"), ("ltp", "99")] "abc" (by decide) (by decide)

end PriceAlertBot
